import Mathlib

/-!
# Verification of the SlicerSOFA integration layer

A shallow embedding of `src/SlicerSofa/SlicerSofa.py`: the `SofaNodeMapper`
field descriptor, the parameter container produced by
`sofaParameterNodeWrapper`, and the `SlicerSofaLogic` lifecycle controller
(`setupScene` / `startSimulation` / `stopSimulation` / `simulationStep` /
`clean`, with the synchronization drivers `__updateSofa__` (Push) and
`__updateMRML__` (Pull)).

Modelling conventions:
* Mover callables are opaque: invoking a mover, resolving its target node,
  advancing the engine (`Sofa.Simulation.animate`), initializing
  (`Sofa.Simulation.init`) and unloading (`Sofa.Simulation.unload`) the graph,
  and displaying the "not running" message are recorded as events in a trace.
  A mover carries only the `run_once` attribute read by the drivers via
  `getattr(f, 'run_once', False)`.
* The time step `dt` is a float that is only passed through to the engine,
  never computed with, so it is omitted from the model.
* Python exceptions (`ValueError`, and the `AttributeError` raised when an
  attribute of `None` is accessed) are modelled in an `Outcome` that pairs the
  post-state - including any mutations performed before the raise - with an
  optional error.
-/

namespace SlicerSofa

/-- A mover callable, as seen by the synchronization drivers: only its
`run_once` attribute (set by the `run_once` decorator, read with
`getattr(f, 'run_once', False)`) matters to the control flow. The `id`
distinguishes different callables. -/
structure Mover where
  id : Nat
  runOnce : Bool
  deriving Repr, DecidableEq

/-- The `SofaNodeMapper` descriptor state after a successful `__init__`:
target node name, optional input/output movers, the `recordSequence` flag and
the two per-direction has-run flags (both initialized to `False`). -/
structure SofaNodeMapper where
  nodeName : Option String
  inputMapping : Option Mover
  outputMapping : Option Mover
  recordSequence : Bool
  inputMapping_has_run : Bool
  outputMapping_has_run : Bool
  deriving Repr, DecidableEq

/-- Python errors raised by this layer: `ValueError` (with its message) and
`AttributeError` (attribute access on `None`). -/
inductive PyErr where
  | valueError (msg : String)
  | attributeError
  deriving Repr, DecidableEq

/-- An argument supplied for a mover slot of `SofaNodeMapper.__init__`:
`None`, a callable, or a non-callable value (tagged to distinguish values). -/
inductive PyArg where
  | pyNone
  | callableArg (m : Mover)
  | nonCallable (tag : Nat)
  deriving Repr, DecidableEq

/-- The mover stored for a slot once validation has passed. -/
def PyArg.toMover : PyArg → Option Mover
  | PyArg.callableArg m => some m
  | _ => none

/-- `SofaNodeMapper.__init__`: reject a non-callable `inputMapping`, then a
non-callable `outputMapping`, with `ValueError`; otherwise build the
descriptor with both has-run flags `False`. -/
def mkSofaNodeMapper (nodeName : Option String)
    (inputMapping outputMapping : PyArg) (recordSequence : Bool) :
    Except PyErr SofaNodeMapper :=
  match inputMapping with
  | PyArg.nonCallable _ => Except.error (PyErr.valueError "inputMapping is not callable")
  | _ =>
    match outputMapping with
    | PyArg.nonCallable _ => Except.error (PyErr.valueError "outputMapping is not callable")
    | _ =>
      Except.ok
        { nodeName := nodeName
          inputMapping := inputMapping.toMover
          outputMapping := outputMapping.toMover
          recordSequence := recordSequence
          inputMapping_has_run := false
          outputMapping_has_run := false }

/-- Observable effects of the layer on its collaborators, recorded in order:
one `pushOp` (resp. `pullOp`) per invocation of `__updateSofa__`
(resp. `__updateMRML__`); per-descriptor node resolution and mover invocation,
tagged with the descriptor field name; engine calls; the user-visible
"not running" message. -/
inductive Event where
  | pushOp
  | pullOp
  | resolveForInput (field : String) (nodeName : Option String)
  | invokeInput (field : String)
  | resolveForOutput (field : String) (nodeName : Option String)
  | invokeOutput (field : String)
  | animate
  | sofaInit
  | unload
  | errorDisplay
  deriving Repr, DecidableEq

/-- One iteration of the `__updateSofa__` loop body on a single descriptor:
skip when there is no input mover, or when it is run-once and has already run;
otherwise resolve the target node, invoke the mover, and record the run-once
firing in the has-run flag. -/
def pushMapper (field : String) (m : SofaNodeMapper) : SofaNodeMapper × List Event :=
  match m.inputMapping with
  | none => (m, [])
  | some f =>
    if f.runOnce && m.inputMapping_has_run then (m, [])
    else
      ((if f.runOnce then { m with inputMapping_has_run := true } else m),
       [Event.resolveForInput field m.nodeName, Event.invokeInput field])

/-- One iteration of the `__updateMRML__` loop body on a single descriptor,
symmetric to `pushMapper` with the output mover. -/
def pullMapper (field : String) (m : SofaNodeMapper) : SofaNodeMapper × List Event :=
  match m.outputMapping with
  | none => (m, [])
  | some f =>
    if f.runOnce && m.outputMapping_has_run then (m, [])
    else
      ((if f.runOnce then { m with outputMapping_has_run := true } else m),
       [Event.resolveForOutput field m.nodeName, Event.invokeOutput field])

/-- The `__updateSofa__` loop over the registry `__sofa_node_mappers__`
(a dict iterated in insertion order, here a list of (field name, descriptor)
pairs): each descriptor is processed independently by `pushMapper`. -/
def pushAll (ms : List (String × SofaNodeMapper)) :
    List (String × SofaNodeMapper) × List Event :=
  (ms.map (fun p => (p.1, (pushMapper p.1 p.2).1)),
   (ms.map (fun p => (pushMapper p.1 p.2).2)).flatten)

/-- The `__updateMRML__` loop, symmetric to `pushAll`. -/
def pullAll (ms : List (String × SofaNodeMapper)) :
    List (String × SofaNodeMapper) × List Event :=
  (ms.map (fun p => (p.1, (pullMapper p.1 p.2).1)),
   (ms.map (fun p => (pullMapper p.1 p.2).2)).flatten)

/-- A parameter container produced by `sofaParameterNodeWrapper`: the
simulation control fields added by the wrapper plus the descriptor registry
`__sofa_node_mappers__` attached to the wrapped class. -/
structure ParamNode where
  totalSteps : Int
  currentStep : Int
  isSimulationRunning : Bool
  sofaParameterNodeWrapped : Bool
  mappers : List (String × SofaNodeMapper)
  deriving Repr, DecidableEq

/-- The `rootNode` argument of `setupScene`: either a genuine
`Sofa.Core.Node` or some other value (tagged), rejected by the
`isinstance` check. -/
inductive RootArg where
  | node
  | invalid (tag : Nat)
  deriving Repr, DecidableEq

/-- The `parameterNode` argument of `setupScene`, as seen by
`__checkParameterNode__`: `None`; an object that lacks the
`sofaParameterNodeWrapped` attribute entirely (any never-wrapped container -
`getattr` is called without a default, so the access raises
`AttributeError`); or an object carrying the attribute, whose value is held
in the `ParamNode` (`sofaParameterNodeWrapped = true` for a genuinely
wrapped container; any attribute value other than `True` fails the
`... or ... is not True` check with `ValueError`, which the Bool field
models as `false`). -/
inductive ParamArg where
  | pyNone
  | noAttr (tag : Nat)
  | wrapped (pn : ParamNode)
  deriving Repr, DecidableEq

/-- The `SlicerSofaLogic` controller state: `_sceneUp`, `_rootNode`,
`_parameterNode`, plus the trace of observable effects emitted so far. -/
structure LogicState where
  sceneUp : Bool
  rootNode : Option Unit
  paramNode : Option ParamNode
  trace : List Event
  deriving Repr, DecidableEq

/-- State and raised-error result of one controller method call; the state
includes mutations performed before an exception was raised. -/
structure Outcome where
  state : LogicState
  err : Option PyErr
  deriving Repr, DecidableEq

/-- `SlicerSofaLogic.__init__`: no scene, no root node, no parameter node. -/
def initState : LogicState :=
  { sceneUp := false, rootNode := none, paramNode := none, trace := [] }

/-- `SlicerSofaLogic.setupScene`: no-op when `_sceneUp` is already set;
otherwise validate the parameter node (`__checkParameterNode__`, inlined):
`None` raises `ValueError`; a container without the
`sofaParameterNodeWrapped` attribute raises `AttributeError` (the `getattr`
on line 168 has no default); a container whose attribute is not `True`
raises `ValueError`. Then store the container in `_parameterNode`, check
`isinstance(rootNode, Sofa.Core.Node)` (raising `ValueError` after
`_parameterNode` was already assigned), store `_rootNode`, run
`__updateSofa__`, call `Sofa.Simulation.init`, and set `_sceneUp`. -/
def setupScene (s : LogicState) (p : ParamArg) (r : RootArg) : Outcome :=
  if s.sceneUp = true then ⟨s, none⟩
  else
    match p with
    | ParamArg.pyNone => ⟨s, some (PyErr.valueError "parameterNode can not be None")⟩
    | ParamArg.noAttr _ => ⟨s, some PyErr.attributeError⟩
    | ParamArg.wrapped pn =>
      if pn.sofaParameterNodeWrapped = false then
        ⟨s, some (PyErr.valueError
          "parameterNode is not a valid parameterNode wrapped by the sofaParameterNodeWrapper")⟩
      else
        match r with
        | RootArg.invalid _ =>
          ⟨{ s with paramNode := some pn },
           some (PyErr.valueError "rootNode is not a valid Sofa.Core.Node root node")⟩
        | RootArg.node =>
          ⟨{ s with
              paramNode := some { pn with mappers := (pushAll pn.mappers).1 }
              rootNode := some ()
              sceneUp := true
              trace := s.trace ++ Event.pushOp :: (pushAll pn.mappers).2 ++ [Event.sofaInit] },
           none⟩

/-- `SlicerSofaLogic.startSimulation`: unconditionally set
`_parameterNode.currentStep = 0` and `_parameterNode.isSimulationRunning =
True`; accessing an attribute of a `None` parameter node raises
`AttributeError` before any mutation. -/
def startSimulation (s : LogicState) : Outcome :=
  match s.paramNode with
  | none => ⟨s, some PyErr.attributeError⟩
  | some pn =>
    ⟨{ s with paramNode := some { pn with currentStep := 0, isSimulationRunning := true } },
     none⟩

/-- `SlicerSofaLogic.stopSimulation`: clear the running flag only when
`_sceneUp` is `True`. -/
def stopSimulation (s : LogicState) : Outcome :=
  if s.sceneUp = true then
    match s.paramNode with
    | none => ⟨s, some PyErr.attributeError⟩
    | some pn =>
      ⟨{ s with paramNode := some { pn with isSimulationRunning := false } }, none⟩
  else ⟨s, none⟩

/-- The branching in the middle of `simulationStep`, applied to the parameter
node after Push: advance and count while `currentStep < totalSteps`; advance
without counting when `totalSteps` is negative (unbounded); otherwise
auto-stop by clearing the running flag. -/
def stepBranch (pn : ParamNode) : ParamNode × List Event :=
  if pn.currentStep < pn.totalSteps then
    ({ pn with currentStep := pn.currentStep + 1 }, [Event.animate])
  else if pn.totalSteps < 0 then (pn, [Event.animate])
  else ({ pn with isSimulationRunning := false }, [])

/-- The parameter node produced by the body of `simulationStep`: registry
after Push, then the advance/stop branching, then registry after Pull. -/
def stepPN (pn : ParamNode) : ParamNode :=
  { (stepBranch { pn with mappers := (pushAll pn.mappers).1 }).1 with
      mappers := (pullAll (stepBranch
        { pn with mappers := (pushAll pn.mappers).1 }).1.mappers).1 }

/-- The body of `simulationStep` once the running guard has passed:
`__updateSofa__` (Push), the advance/stop branching, `__updateMRML__`
(Pull); the events of the three phases are appended in order. -/
def simulationStepRun (s : LogicState) (pn : ParamNode) : Outcome :=
  ⟨{ s with
      paramNode := some (stepPN pn)
      trace := s.trace ++ Event.pushOp :: (pushAll pn.mappers).2
                 ++ (stepBranch { pn with mappers := (pushAll pn.mappers).1 }).2
                 ++ Event.pullOp :: (pullAll (stepBranch
                      { pn with mappers := (pushAll pn.mappers).1 }).1.mappers).2 },
   none⟩

/-- `SlicerSofaLogic.simulationStep`: when `_sceneUp` is `False` or the
running flag is `False`, display the "not running" error and return;
the short-circuit `or` only reads `_parameterNode.isSimulationRunning`
(raising `AttributeError` on `None`) when `_sceneUp` is `True`. -/
def simulationStep (s : LogicState) : Outcome :=
  if s.sceneUp = false then
    ⟨{ s with trace := s.trace ++ [Event.errorDisplay] }, none⟩
  else
    match s.paramNode with
    | none => ⟨s, some PyErr.attributeError⟩
    | some pn =>
      if pn.isSimulationRunning = false then
        ⟨{ s with trace := s.trace ++ [Event.errorDisplay] }, none⟩
      else simulationStepRun s pn

/-- `SlicerSofaLogic.clean`: when `_sceneUp` is `True` and `_rootNode` is
truthy, unload the graph, clear `_rootNode`, clear `_sceneUp`, and finally
clear the running flag (this last access raises `AttributeError` when
`_parameterNode` is `None`, after the other mutations); otherwise no-op. -/
def clean (s : LogicState) : Outcome :=
  if s.sceneUp = true && s.rootNode.isSome then
    match s.paramNode with
    | none =>
      ⟨{ s with rootNode := none, sceneUp := false, trace := s.trace ++ [Event.unload] },
       some PyErr.attributeError⟩
    | some pn =>
      ⟨{ s with
          rootNode := none
          sceneUp := false
          paramNode := some { pn with isSimulationRunning := false }
          trace := s.trace ++ [Event.unload] },
       none⟩
  else ⟨s, none⟩

/-- The state reached by a `simulationStep` call (its raised error, if any,
discarded). -/
def stepState (s : LogicState) : LogicState := (simulationStep s).state

/-- The running flag of the attached parameter container, if any. -/
def runningOf (s : LogicState) : Option Bool :=
  s.paramNode.map (fun pn => pn.isSimulationRunning)

/-- The current step counter of the attached parameter container, if any. -/
def currentStepOf (s : LogicState) : Option Int :=
  s.paramNode.map (fun pn => pn.currentStep)

/-- Number of `__updateSofa__` (Push) invocations recorded in a trace. -/
def countPush (tr : List Event) : Nat :=
  tr.countP (fun e => decide (e = Event.pushOp))

/-- Recognizes the invocation event of the input mover of field `fname`. -/
def isInvokeInput (fname : String) : Event → Bool
  | Event.invokeInput g => g == fname
  | _ => false

/-- Recognizes the node-resolution event performed for the input mover of
field `fname`. -/
def isResolveInput (fname : String) : Event → Bool
  | Event.resolveForInput g _ => g == fname
  | _ => false

/-- Recognizes the invocation event of the output mover of field `fname`. -/
def isInvokeOutput (fname : String) : Event → Bool
  | Event.invokeOutput g => g == fname
  | _ => false

/-- Recognizes the node-resolution event performed for the output mover of
field `fname`. -/
def isResolveOutput (fname : String) : Event → Bool
  | Event.resolveForOutput g _ => g == fname
  | _ => false

/-- A sequence of synchronization driver invocations on the registry:
`true` stands for a Push (`__updateSofa__`), `false` for a Pull
(`__updateMRML__`); returns the final registry and the concatenated trace. -/
def syncIter : List Bool → List (String × SofaNodeMapper) →
    List (String × SofaNodeMapper) × List Event
  | [], ms => (ms, [])
  | b :: ops, ms =>
    ((syncIter ops (if b then pushAll ms else pullAll ms).1).1,
     (if b then pushAll ms else pullAll ms).2
       ++ (syncIter ops (if b then pushAll ms else pullAll ms).1).2)

/-- Folding a sequence of further `setupScene` calls over the controller. -/
def foldSetup (s : LogicState) (calls : List (ParamArg × RootArg)) : LogicState :=
  calls.foldl (fun s c => (setupScene s c.1 c.2).state) s

/-- The controller's stored container, handed back to `setupScene` as an
argument (a stored container always carries the wrapped attribute). -/
def argOf (s : LogicState) : ParamArg :=
  match s.paramNode with
  | none => ParamArg.pyNone
  | some pn => ParamArg.wrapped pn

/-! ## Concrete fixtures used by the witness theorems -/

/-- A run-once input mover. -/
def moverIn : Mover := { id := 0, runOnce := true }

/-- A run-once output mover. -/
def moverOut : Mover := { id := 1, runOnce := true }

/-- An every-step input mover. -/
def moverEach : Mover := { id := 2, runOnce := false }

/-- A descriptor with a run-once mover in each direction. -/
def mapperOnce : SofaNodeMapper :=
  { nodeName := some "mesh"
    inputMapping := some moverIn
    outputMapping := some moverOut
    recordSequence := false
    inputMapping_has_run := false
    outputMapping_has_run := false }

/-- A descriptor with an every-step input mover targeting the root. -/
def mapperEach : SofaNodeMapper :=
  { nodeName := none
    inputMapping := some moverEach
    outputMapping := none
    recordSequence := false
    inputMapping_has_run := false
    outputMapping_has_run := false }

/-- A small registry with both descriptors. -/
def registryW : List (String × SofaNodeMapper) :=
  [("mesh", mapperOnce), ("force", mapperEach)]

/-- The run-once descriptor after both its movers have fired. -/
def mapperFired : SofaNodeMapper :=
  { mapperOnce with inputMapping_has_run := true, outputMapping_has_run := true }

/-- A registry in which the run-once descriptor has already fired. -/
def registryFired : List (String × SofaNodeMapper) :=
  [("mesh", mapperFired), ("force", mapperEach)]

/-- A freshly wrapped container with the wrapper defaults for the control
fields (`totalSteps = -1`, `currentStep = 0`, running and `False`). -/
def pnUnbounded : ParamNode :=
  { totalSteps := -1
    currentStep := 0
    isSimulationRunning := false
    sofaParameterNodeWrapped := true
    mappers := registryW }

/-- A wrapped container with a step bound of 2. -/
def pnBounded : ParamNode :=
  { pnUnbounded with totalSteps := 2 }

/-- A Built controller state holding `pnBounded`. -/
def builtBounded : LogicState :=
  { sceneUp := true, rootNode := some (), paramNode := some pnBounded, trace := [] }

/-- A Built controller state holding `pnUnbounded`. -/
def builtUnbounded : LogicState :=
  { sceneUp := true, rootNode := some (), paramNode := some pnUnbounded, trace := [] }

/-- A wrapped container holding the already-fired registry. -/
def pnFired : ParamNode :=
  { pnUnbounded with mappers := registryFired }

/-- A Built controller state holding `pnFired`. -/
def builtFired : LogicState :=
  { sceneUp := true, rootNode := some (), paramNode := some pnFired, trace := [] }

/-! ## Theorems -/

/-- C10: `startSimulation()` does not check the Built flag: with a parameter
container attached, from any lifecycle state, it sets `currentStep` to 0 and
the running flag to true and changes nothing else. -/
theorem startSimulation_unconditional (s : LogicState) (pn : ParamNode)
    (h : s.paramNode = some pn) :
    startSimulation s =
      ⟨{ s with paramNode := some { pn with currentStep := 0, isSimulationRunning := true } },
       none⟩ := by
  simp [startSimulation, h]

/-- Witness for C10: a state that was never set up (not Built), with a
container attached whose counter is nonzero. -/
theorem startSimulation_unconditional_witness :
    startSimulation
        { sceneUp := false, rootNode := none,
          paramNode := some { pnBounded with currentStep := 7 }, trace := [] } =
      ⟨{ sceneUp := false, rootNode := none,
         paramNode := some { pnBounded with currentStep := 0, isSimulationRunning := true },
         trace := [] }, none⟩ :=
  startSimulation_unconditional _ { pnBounded with currentStep := 7 } rfl

/-- C5: whenever `simulationStep()` is called while the Built flag is false
or the running flag is false, it only displays the user-visible error: the
controller state is unchanged except for the displayed message, so no Push,
no Pull, no engine advance, and no change to `currentStep` or the running
flag. -/
theorem simulationStep_not_running_noop (s : LogicState)
    (h : s.sceneUp = false ∨ ∃ pn, s.paramNode = some pn ∧ pn.isSimulationRunning = false) :
    simulationStep s = ⟨{ s with trace := s.trace ++ [Event.errorDisplay] }, none⟩ := by
  unfold simulationStep
  rcases h with h | ⟨pn, hp, hr⟩
  · rw [if_pos h]
  · by_cases hs : s.sceneUp = false
    · rw [if_pos hs]
    · rw [if_neg hs, hp]
      simp [hr]

/-- Witness for C5: a Built state whose simulation is not running. -/
theorem simulationStep_not_running_noop_witness :
    simulationStep builtBounded =
      ⟨{ builtBounded with trace := builtBounded.trace ++ [Event.errorDisplay] }, none⟩ :=
  simulationStep_not_running_noop builtBounded (Or.inr ⟨pnBounded, rfl, rfl⟩)

/-- C9: constructing a `SofaNodeMapper` with a non-callable (non-`None`)
input or output mover always fails with a `ValueError`, so no descriptor is
produced or registered. -/
theorem mkSofaNodeMapper_noncallable_fails (nn : Option String)
    (i o : PyArg) (rs : Bool)
    (h : (∃ t, i = PyArg.nonCallable t) ∨ (∃ t, o = PyArg.nonCallable t)) :
    ∃ msg, mkSofaNodeMapper nn i o rs = Except.error (PyErr.valueError msg) := by
  rcases h with ⟨t, ht⟩ | ⟨t, ht⟩
  · subst ht; exact ⟨_, rfl⟩
  · subst ht
    cases i <;> exact ⟨_, rfl⟩

/-- Witness for C9: a non-callable output mover next to a valid input
mover. -/
theorem mkSofaNodeMapper_noncallable_fails_witness :
    ∃ msg, mkSofaNodeMapper (some "mesh") (PyArg.callableArg moverIn) (PyArg.nonCallable 5) true
      = Except.error (PyErr.valueError msg) :=
  mkSofaNodeMapper_noncallable_fails (some "mesh") (PyArg.callableArg moverIn)
    (PyArg.nonCallable 5) true (Or.inr ⟨5, rfl⟩)

/-- C7: `clean()` is idempotent: from any controller state, running `clean`
a second time on the state produced by the first call changes nothing and
emits no further teardown calls. -/
theorem clean_idempotent (s : LogicState) :
    clean (clean s).state = ⟨(clean s).state, none⟩ := by
  unfold clean
  by_cases h : s.sceneUp = true && s.rootNode.isSome
  · rw [if_pos h]
    cases hp : s.paramNode <;> simp
  · rw [if_neg h]
    rw [if_neg h]

/-- Counterexample to C6 as stated: from the Idle state, `setupScene` with a
valid wrapped container but an invalid root node raises `ValueError`, yet the
controller state is NOT left unchanged: `_parameterNode` was already assigned
before the root-node check, so it changed from `none` to the container.
(A second divergence from the claim, exhibited in the same statement: a
container lacking the `sofaParameterNodeWrapped` attribute fails with
`AttributeError`, not `ValueError`.) -/
theorem setupScene_invalid_root_mutates :
    ((setupScene initState (ParamArg.wrapped pnBounded) (RootArg.invalid 0)).err =
        some (PyErr.valueError "rootNode is not a valid Sofa.Core.Node root node")
      ∧ (setupScene initState (ParamArg.wrapped pnBounded) (RootArg.invalid 0)).state
          ≠ initState
      ∧ (setupScene initState (ParamArg.wrapped pnBounded) (RootArg.invalid 0)).state.paramNode
          = some pnBounded
      ∧ initState.paramNode = none)
    ∧ (setupScene initState (ParamArg.noAttr 0) RootArg.node).err
        = some PyErr.attributeError := by decide

/-- C6 amended: from the Idle state, `setupScene` with an invalid container
or an invalid root node fails by raising: a `None` container, a container
whose wrapped attribute is present but not `True`, and an invalid root node
all raise `ValueError`, while a container lacking the wrapped attribute
raises `AttributeError` (the `getattr` has no default). In every case the
Built flag stays false, no Push executes, the engine graph is not
initialized (trace unchanged) and the root-node handle is unchanged; the
stored parameter-node reference is either unchanged or - when the container
is valid and only the handle is invalid - already updated to the given
container. -/
theorem setupScene_invalid_args (s : LogicState) (p : ParamArg) (r : RootArg)
    (h0 : s.sceneUp = false)
    (hbad : (∀ pn, p = ParamArg.wrapped pn → pn.sofaParameterNodeWrapped = false)
      ∨ ∃ t, r = RootArg.invalid t) :
    ∃ e, (setupScene s p r).err = some e
      ∧ ((∃ t, p = ParamArg.noAttr t) → e = PyErr.attributeError)
      ∧ ((∀ t, p ≠ ParamArg.noAttr t) → ∃ msg, e = PyErr.valueError msg)
      ∧ (setupScene s p r).state.sceneUp = false
      ∧ (setupScene s p r).state.trace = s.trace
      ∧ (setupScene s p r).state.rootNode = s.rootNode
      ∧ ((setupScene s p r).state.paramNode = s.paramNode
          ∨ ∃ pn, p = ParamArg.wrapped pn
              ∧ (setupScene s p r).state.paramNode = some pn) := by
  have hs : ¬ (s.sceneUp = true) := by simp [h0]
  rcases p with _ | t | pn
  · have heq : setupScene s ParamArg.pyNone r =
        ⟨s, some (PyErr.valueError "parameterNode can not be None")⟩ := by
      simp [setupScene, hs]
    rw [heq]
    exact ⟨_, rfl, (by rintro ⟨t, ht⟩; cases ht), fun _ => ⟨_, rfl⟩, h0, rfl, rfl, Or.inl rfl⟩
  · have heq : setupScene s (ParamArg.noAttr t) r =
        ⟨s, some PyErr.attributeError⟩ := by
      simp [setupScene, hs]
    rw [heq]
    refine ⟨_, rfl, fun _ => rfl, fun hno => absurd rfl (hno t), h0, rfl, rfl, Or.inl rfl⟩
  · by_cases hw : pn.sofaParameterNodeWrapped = false
    · have heq : setupScene s (ParamArg.wrapped pn) r =
          ⟨s, some (PyErr.valueError
            "parameterNode is not a valid parameterNode wrapped by the sofaParameterNodeWrapper")⟩ := by
        simp [setupScene, hs, hw]
      rw [heq]
      exact ⟨_, rfl, (by rintro ⟨t, ht⟩; cases ht), fun _ => ⟨_, rfl⟩, h0, rfl, rfl, Or.inl rfl⟩
    · rcases hbad with hb | ⟨t, ht⟩
      · exact absurd (hb pn rfl) hw
      · subst ht
        have heq : setupScene s (ParamArg.wrapped pn) (RootArg.invalid t) =
            ⟨{ s with paramNode := some pn },
             some (PyErr.valueError "rootNode is not a valid Sofa.Core.Node root node")⟩ := by
          simp [setupScene, hs, hw]
        rw [heq]
        exact ⟨_, rfl, (by rintro ⟨u, hu⟩; cases hu), fun _ => ⟨_, rfl⟩, h0, rfl, rfl,
          Or.inr ⟨pn, rfl, rfl⟩⟩

/-- Witness for the amended C6: a never-wrapped container (no
`sofaParameterNodeWrapped` attribute) from the Idle state. -/
theorem setupScene_invalid_args_witness :
    ∃ e, (setupScene initState (ParamArg.noAttr 7) RootArg.node).err = some e
      ∧ ((∃ t, ParamArg.noAttr 7 = ParamArg.noAttr t) → e = PyErr.attributeError)
      ∧ ((∀ t, ParamArg.noAttr 7 ≠ ParamArg.noAttr t) → ∃ msg, e = PyErr.valueError msg)
      ∧ (setupScene initState (ParamArg.noAttr 7) RootArg.node).state.sceneUp = false
      ∧ (setupScene initState (ParamArg.noAttr 7) RootArg.node).state.trace = initState.trace
      ∧ (setupScene initState (ParamArg.noAttr 7) RootArg.node).state.rootNode
          = initState.rootNode
      ∧ ((setupScene initState (ParamArg.noAttr 7) RootArg.node).state.paramNode
            = initState.paramNode
          ∨ ∃ pn, ParamArg.noAttr 7 = ParamArg.wrapped pn
              ∧ (setupScene initState (ParamArg.noAttr 7) RootArg.node).state.paramNode
                  = some pn) :=
  setupScene_invalid_args initState (ParamArg.noAttr 7) RootArg.node rfl
    (Or.inl fun _pn h => nomatch h)

/-- From a Built, running state, `simulationStep` takes the running path. -/
theorem simulationStep_running (s : LogicState) (pn : ParamNode)
    (h1 : s.sceneUp = true) (h2 : s.paramNode = some pn)
    (h3 : pn.isSimulationRunning = true) :
    simulationStep s = simulationStepRun s pn := by
  have hs : ¬ (s.sceneUp = false) := by simp [h1]
  unfold simulationStep
  rw [if_neg hs, h2]
  simp [h3]

/-- Control-field effect of one `simulationStep` from a Built, running state:
the scene stays up, `totalSteps` and the wrapped flag are untouched, and the
counter/running flag follow the three branches of the step body (advance and
count, unbounded advance, auto-stop). -/
theorem simulationStep_control (s : LogicState) (pn : ParamNode)
    (h1 : s.sceneUp = true) (h2 : s.paramNode = some pn)
    (h3 : pn.isSimulationRunning = true) :
    ∃ pn', (simulationStep s).state.paramNode = some pn'
      ∧ (simulationStep s).state.sceneUp = true
      ∧ pn'.totalSteps = pn.totalSteps
      ∧ pn'.sofaParameterNodeWrapped = pn.sofaParameterNodeWrapped
      ∧ ((pn.currentStep < pn.totalSteps
            ∧ pn'.currentStep = pn.currentStep + 1 ∧ pn'.isSimulationRunning = true)
        ∨ (¬ pn.currentStep < pn.totalSteps ∧ pn.totalSteps < 0
            ∧ pn'.currentStep = pn.currentStep ∧ pn'.isSimulationRunning = true)
        ∨ (¬ pn.currentStep < pn.totalSteps ∧ ¬ pn.totalSteps < 0
            ∧ pn'.currentStep = pn.currentStep ∧ pn'.isSimulationRunning = false)) := by
  rw [simulationStep_running s pn h1 h2 h3]
  by_cases hlt : pn.currentStep < pn.totalSteps
  · refine ⟨stepPN pn, rfl, ?_, ?_, ?_, Or.inl ⟨hlt, ?_, ?_⟩⟩ <;>
      simp [simulationStepRun, stepPN, stepBranch, h1, h3, hlt]
  · by_cases hneg : pn.totalSteps < 0
    · refine ⟨stepPN pn, rfl, ?_, ?_, ?_, Or.inr (Or.inl ⟨hlt, hneg, ?_, ?_⟩)⟩ <;>
        simp [simulationStepRun, stepPN, stepBranch, h1, h3, hlt, hneg]
    · refine ⟨stepPN pn, rfl, ?_, ?_, ?_, Or.inr (Or.inr ⟨hlt, hneg, ?_, ?_⟩)⟩ <;>
        simp [simulationStepRun, stepPN, stepBranch, h1, h3, hlt, hneg]

/-- Iterating `simulationStep` while the counter stays below the bound:
each of the `k` calls advances the counter by one and keeps running true. -/
theorem stepState_iter_bounded (k : Nat) :
    ∀ (s : LogicState) (pn : ParamNode),
    s.sceneUp = true → s.paramNode = some pn → pn.isSimulationRunning = true →
    pn.currentStep + (k : Int) ≤ pn.totalSteps →
    ∃ pn', (stepState^[k] s).paramNode = some pn'
      ∧ (stepState^[k] s).sceneUp = true
      ∧ pn'.isSimulationRunning = true
      ∧ pn'.currentStep = pn.currentStep + (k : Int)
      ∧ pn'.totalSteps = pn.totalSteps
      ∧ pn'.sofaParameterNodeWrapped = pn.sofaParameterNodeWrapped := by
  induction k with
  | zero =>
    intro s pn h1 h2 h3 _
    exact ⟨pn, by simpa using h2, by simpa using h1, h3, by simp, rfl, rfl⟩
  | succ k ih =>
    intro s pn h1 h2 h3 hle
    have hk : ((k : Int) + 1) = ((k + 1 : Nat) : Int) := by push_cast; ring
    have hlt : pn.currentStep < pn.totalSteps := by
      rw [← hk] at hle; omega
    obtain ⟨pn1, hp1, hs1, hT, hW, hbr⟩ := simulationStep_control s pn h1 h2 h3
    rcases hbr with ⟨_, hc1, hr1⟩ | ⟨hn, _, _, _⟩ | ⟨hn, _, _, _⟩
    · rw [Function.iterate_succ_apply]
      obtain ⟨pn', a, b, c, d, e, f⟩ := ih (stepState s) pn1 hs1 hp1 hr1
        (by rw [hc1, hT, ← hk] at *; omega)
      refine ⟨pn', a, b, c, ?_, by rw [e, hT], by rw [f, hW]⟩
      rw [d, hc1, ← hk]; ring
    · exact absurd hlt hn
    · exact absurd hlt hn

/-- C1: from any Built state holding a wrapped container with
`totalSteps = N ≥ 0`, immediately after `startSimulation()` the first `N`
calls to `simulationStep()` leave running true and bring `currentStep` to
`N`; the `(N+1)`-th call sets running false and leaves `currentStep` at
`N`. -/
theorem bounded_run_auto_stops (s : LogicState) (pn : ParamNode) (N : Nat)
    (h1 : s.sceneUp = true) (h2 : s.paramNode = some pn)
    (_hw : pn.sofaParameterNodeWrapped = true)
    (hT : pn.totalSteps = (N : Int)) :
    runningOf (stepState^[N] (startSimulation s).state) = some true
    ∧ currentStepOf (stepState^[N] (startSimulation s).state) = some (N : Int)
    ∧ runningOf (stepState (stepState^[N] (startSimulation s).state)) = some false
    ∧ currentStepOf (stepState (stepState^[N] (startSimulation s).state)) = some (N : Int) := by
  have hstart : startSimulation s =
      ⟨{ s with paramNode := some { pn with currentStep := 0, isSimulationRunning := true } },
       none⟩ := startSimulation_unconditional s pn h2
  rw [hstart]
  set pn0 : ParamNode := { pn with currentStep := 0, isSimulationRunning := true } with hpn0
  set s0 : LogicState := { s with paramNode := some pn0 } with hs0
  have h10 : s0.sceneUp = true := by simpa [hs0] using h1
  have h20 : s0.paramNode = some pn0 := rfl
  have h30 : pn0.isSimulationRunning = true := rfl
  have hle : pn0.currentStep + (N : Int) ≤ pn0.totalSteps := by
    simp [hpn0, hT]
  obtain ⟨pn', hp', hs', hr', hc', hT', _⟩ :=
    stepState_iter_bounded N s0 pn0 h10 h20 h30 hle
  have hc'' : pn'.currentStep = (N : Int) := by
    simpa [hpn0] using hc'
  have hT'' : pn'.totalSteps = (N : Int) := by
    simpa [hpn0, hT] using hT'
  refine ⟨by simp [runningOf, hp', hr'], by simp [currentStepOf, hp', hc''], ?_, ?_⟩
  · obtain ⟨pn2, hp2, _, _, _, hbr⟩ :=
      simulationStep_control (stepState^[N] s0) pn' hs' hp' hr'
    rcases hbr with ⟨hlt, _, _⟩ | ⟨_, hneg, _, _⟩ | ⟨_, _, _, hr2⟩
    · rw [hc'', hT''] at hlt; omega
    · rw [hT''] at hneg; omega
    · simp [runningOf, stepState, hp2, hr2]
  · obtain ⟨pn2, hp2, _, _, _, hbr⟩ :=
      simulationStep_control (stepState^[N] s0) pn' hs' hp' hr'
    rcases hbr with ⟨hlt, _, _⟩ | ⟨_, hneg, _, _⟩ | ⟨_, _, hc2, _⟩
    · rw [hc'', hT''] at hlt; omega
    · rw [hT''] at hneg; omega
    · simp [currentStepOf, stepState, hp2, hc2, hc'']

/-- Witness for C1: the Built fixture with `totalSteps = 2`. -/
theorem bounded_run_auto_stops_witness :
    runningOf (stepState^[2] (startSimulation builtBounded).state) = some true
    ∧ currentStepOf (stepState^[2] (startSimulation builtBounded).state) = some (2 : Int)
    ∧ runningOf (stepState (stepState^[2] (startSimulation builtBounded).state)) = some false
    ∧ currentStepOf (stepState (stepState^[2] (startSimulation builtBounded).state))
        = some (2 : Int) :=
  bounded_run_auto_stops builtBounded pnBounded 2 rfl rfl rfl rfl

/-- Iterating `simulationStep` with a negative step bound: every call keeps
running true and never changes the counter, provided the counter is not
below the (negative) bound. -/
theorem stepState_iter_unbounded (k : Nat) :
    ∀ (s : LogicState) (pn : ParamNode),
    s.sceneUp = true → s.paramNode = some pn → pn.isSimulationRunning = true →
    pn.totalSteps < 0 → ¬ pn.currentStep < pn.totalSteps →
    ∃ pn', (stepState^[k] s).paramNode = some pn'
      ∧ (stepState^[k] s).sceneUp = true
      ∧ pn'.isSimulationRunning = true
      ∧ pn'.currentStep = pn.currentStep
      ∧ pn'.totalSteps = pn.totalSteps := by
  induction k with
  | zero =>
    intro s pn h1 h2 h3 _ _
    exact ⟨pn, by simpa using h2, by simpa using h1, h3, rfl, rfl⟩
  | succ k ih =>
    intro s pn h1 h2 h3 hneg hge
    obtain ⟨pn1, hp1, hs1, hT, _, hbr⟩ := simulationStep_control s pn h1 h2 h3
    rcases hbr with ⟨hlt, _, _⟩ | ⟨_, _, hc1, hr1⟩ | ⟨_, hn, _, _⟩
    · exact absurd hlt hge
    · rw [Function.iterate_succ_apply]
      obtain ⟨pn', a, b, c, d, e⟩ := ih (stepState s) pn1 hs1 hp1 hr1
        (by rw [hT]; exact hneg) (by rw [hc1, hT]; exact hge)
      exact ⟨pn', a, b, c, by rw [d, hc1], by rw [e, hT]⟩
    · exact absurd hneg hn

/-- C2: from any Built state holding a wrapped container with
`totalSteps = -1`, after `startSimulation()` no number of `simulationStep()`
calls ever clears the running flag, and `currentStep` stays 0. -/
theorem unbounded_run_never_stops (s : LogicState) (pn : ParamNode) (n : Nat)
    (h1 : s.sceneUp = true) (h2 : s.paramNode = some pn)
    (_hw : pn.sofaParameterNodeWrapped = true)
    (hT : pn.totalSteps = -1) :
    runningOf (stepState^[n] (startSimulation s).state) = some true
    ∧ currentStepOf (stepState^[n] (startSimulation s).state) = some 0 := by
  have hstart : startSimulation s =
      ⟨{ s with paramNode := some { pn with currentStep := 0, isSimulationRunning := true } },
       none⟩ := startSimulation_unconditional s pn h2
  rw [hstart]
  set pn0 : ParamNode := { pn with currentStep := 0, isSimulationRunning := true } with hpn0
  set s0 : LogicState := { s with paramNode := some pn0 } with hs0
  have hT0 : pn0.totalSteps = -1 := by simpa [hpn0] using hT
  obtain ⟨pn', hp', _, hr', hc', _⟩ :=
    stepState_iter_unbounded n s0 pn0 (by simpa [hs0] using h1) rfl rfl
      (by simp [hT]) (by simp [hT])
  have hc0 : pn'.currentStep = 0 := by simpa [hpn0] using hc'
  exact ⟨by simp [runningOf, hp', hr'], by simp [currentStepOf, hp', hc0]⟩

/-- Witness for C2: the Built fixture with `totalSteps = -1`, five steps. -/
theorem unbounded_run_never_stops_witness :
    runningOf (stepState^[5] (startSimulation builtUnbounded).state) = some true
    ∧ currentStepOf (stepState^[5] (startSimulation builtUnbounded).state) = some 0 :=
  unbounded_run_never_stops builtUnbounded pnUnbounded 5 rfl rfl rfl rfl

/-- Every event emitted while processing one descriptor in `__updateSofa__`
is a node resolution or an input-mover invocation for that field. -/
theorem pushMapper_events (fn : String) (m : SofaNodeMapper) (e : Event)
    (he : e ∈ (pushMapper fn m).2) :
    e = Event.resolveForInput fn m.nodeName ∨ e = Event.invokeInput fn := by
  unfold pushMapper at he
  split at he
  · simp at he
  · split at he
    · simp at he
    · simp at he
      tauto

/-- Every event emitted while processing one descriptor in `__updateMRML__`
is a node resolution or an output-mover invocation for that field. -/
theorem pullMapper_events (fn : String) (m : SofaNodeMapper) (e : Event)
    (he : e ∈ (pullMapper fn m).2) :
    e = Event.resolveForOutput fn m.nodeName ∨ e = Event.invokeOutput fn := by
  unfold pullMapper at he
  split at he
  · simp at he
  · split at he
    · simp at he
    · simp at he
      tauto

/-- The event list of a Push contains no `pushOp` marker: markers are only
emitted by the controller, one per `__updateSofa__` invocation. -/
theorem countPush_pushAll (ms : List (String × SofaNodeMapper)) :
    countPush (pushAll ms).2 = 0 := by
  unfold countPush
  rw [List.countP_eq_zero]
  intro e he
  rw [pushAll, List.mem_flatten] at he
  obtain ⟨l, hl, hel⟩ := he
  rw [List.mem_map] at hl
  obtain ⟨p, _, hp⟩ := hl
  subst hp
  rcases pushMapper_events p.1 p.2 e hel with h | h <;> subst h <;> simp

/-- `setupScene` is an exact no-op once the scene is up. -/
theorem setupScene_noop (s : LogicState) (h : s.sceneUp = true)
    (p : ParamArg) (r : RootArg) :
    setupScene s p r = ⟨s, none⟩ := by
  unfold setupScene
  rw [if_pos h]

/-- Any sequence of further `setupScene` calls on a Built controller leaves
the state fixed. -/
theorem foldSetup_fixed (calls : List (ParamArg × RootArg)) :
    ∀ (s : LogicState), s.sceneUp = true → foldSetup s calls = s := by
  induction calls with
  | nil => intro s _; rfl
  | cons c cs ih =>
    intro s h
    show foldSetup (setupScene s c.1 c.2).state cs = s
    rw [setupScene_noop s h c.1 c.2]
    exact ih s h

/-- Inversion of a successful `setupScene` from a not-yet-Built state: the
container was wrapped, the root node valid, and the resulting state is the
Built one with the Push trace appended. -/
theorem setupScene_success_inv (s s1 : LogicState) (p : ParamArg) (r : RootArg)
    (h0 : s.sceneUp = false) (h : setupScene s p r = ⟨s1, none⟩) :
    ∃ pn, p = ParamArg.wrapped pn ∧ pn.sofaParameterNodeWrapped = true ∧ r = RootArg.node
      ∧ s1 = { s with
          paramNode := some { pn with mappers := (pushAll pn.mappers).1 }
          rootNode := some ()
          sceneUp := true
          trace := s.trace ++ Event.pushOp :: (pushAll pn.mappers).2 ++ [Event.sofaInit] } := by
  have hs : ¬ (s.sceneUp = true) := by simp [h0]
  unfold setupScene at h
  rw [if_neg hs] at h
  rcases p with _ | t | pn
  · exact absurd (congrArg Outcome.err h) (by simp)
  · exact absurd (congrArg Outcome.err h) (by simp)
  · by_cases hw : pn.sofaParameterNodeWrapped = false
    · exfalso
      simp [hw] at h
    · rcases r with _ | t
      · refine ⟨pn, rfl, by simpa using hw, rfl, ?_⟩
        simp [hw] at h
        have hw2 : pn.sofaParameterNodeWrapped = true := by simpa using hw
        rw [← h]
        simp [hw2]
      · exfalso
        simp [hw] at h

/-- C3: on a controller that has not been Built and has recorded no Push,
a first successful `setupScene` records exactly one Push; every later
`setupScene` call, with any arguments, is an exact no-op, so after any
number of further calls exactly one Push has executed. -/
theorem setupScene_single_push (s s1 : LogicState) (p : ParamArg) (r : RootArg)
    (calls : List (ParamArg × RootArg))
    (h0 : s.sceneUp = false) (hc : countPush s.trace = 0)
    (h : setupScene s p r = ⟨s1, none⟩) :
    countPush s1.trace = 1
    ∧ foldSetup s1 calls = s1
    ∧ countPush (foldSetup s1 calls).trace = 1 := by
  obtain ⟨pn, hp, hw, hr, hs1⟩ := setupScene_success_inv s s1 p r h0 h
  have hup : s1.sceneUp = true := by rw [hs1]
  have hcount : countPush s1.trace = 1 := by
    rw [hs1]
    show countPush (s.trace ++ Event.pushOp :: (pushAll pn.mappers).2 ++ [Event.sofaInit]) = 1
    unfold countPush at hc ⊢
    rw [List.countP_append, List.countP_append, List.countP_cons]
    have h2 := countPush_pushAll pn.mappers
    unfold countPush at h2
    simp [hc, h2]
  refine ⟨hcount, foldSetup_fixed calls s1 hup, ?_⟩
  rw [foldSetup_fixed calls s1 hup]
  exact hcount

/-- Witness for C3: build from the initial state with the bounded fixture,
then call `setupScene` twice more with junk arguments. -/
theorem setupScene_single_push_witness :
    countPush (setupScene initState (ParamArg.wrapped pnBounded) RootArg.node).state.trace = 1
    ∧ foldSetup (setupScene initState (ParamArg.wrapped pnBounded) RootArg.node).state
        [(ParamArg.pyNone, RootArg.invalid 0), (ParamArg.noAttr 1, RootArg.node),
         (ParamArg.wrapped pnUnbounded, RootArg.node)]
        = (setupScene initState (ParamArg.wrapped pnBounded) RootArg.node).state
    ∧ countPush (foldSetup (setupScene initState (ParamArg.wrapped pnBounded) RootArg.node).state
        [(ParamArg.pyNone, RootArg.invalid 0), (ParamArg.noAttr 1, RootArg.node),
         (ParamArg.wrapped pnUnbounded, RootArg.node)]).trace = 1 :=
  setupScene_single_push initState
    (setupScene initState (ParamArg.wrapped pnBounded) RootArg.node).state
    (ParamArg.wrapped pnBounded) RootArg.node
    [(ParamArg.pyNone, RootArg.invalid 0), (ParamArg.noAttr 1, RootArg.node),
     (ParamArg.wrapped pnUnbounded, RootArg.node)]
    rfl rfl rfl

/-- `__updateMRML__` never touches a descriptor's input mover or its
input-direction has-run flag. -/
theorem pullMapper_input_frame (fn : String) (m : SofaNodeMapper) :
    (pullMapper fn m).1.inputMapping = m.inputMapping
    ∧ (pullMapper fn m).1.inputMapping_has_run = m.inputMapping_has_run := by
  unfold pullMapper
  split
  · exact ⟨rfl, rfl⟩
  · split
    · exact ⟨rfl, rfl⟩
    · refine ⟨?_, ?_⟩ <;> (split <;> rfl)

/-- `__updateSofa__` never touches a descriptor's output mover or its
output-direction has-run flag. -/
theorem pushMapper_output_frame (fn : String) (m : SofaNodeMapper) :
    (pushMapper fn m).1.outputMapping = m.outputMapping
    ∧ (pushMapper fn m).1.outputMapping_has_run = m.outputMapping_has_run := by
  unfold pushMapper
  split
  · exact ⟨rfl, rfl⟩
  · split
    · exact ⟨rfl, rfl⟩
    · refine ⟨?_, ?_⟩ <;> (split <;> rfl)

/-- Push keeps the field names of the registry. -/
theorem pushAll_fst (ms : List (String × SofaNodeMapper)) :
    (pushAll ms).1.map Prod.fst = ms.map Prod.fst := by
  show ((ms.map fun p => (p.1, (pushMapper p.1 p.2).1)).map Prod.fst) = ms.map Prod.fst
  rw [List.map_map]
  rfl

/-- Pull keeps the field names of the registry. -/
theorem pullAll_fst (ms : List (String × SofaNodeMapper)) :
    (pullAll ms).1.map Prod.fst = ms.map Prod.fst := by
  show ((ms.map fun p => (p.1, (pullMapper p.1 p.2).1)).map Prod.fst) = ms.map Prod.fst
  rw [List.map_map]
  rfl

/-- Every event of a Push belongs to some registry entry and is an
input-direction resolution or invocation tagged with that entry's name. -/
theorem pushAll_events (ms : List (String × SofaNodeMapper)) (e : Event)
    (he : e ∈ (pushAll ms).2) :
    ∃ p, p ∈ ms ∧ (e = Event.resolveForInput p.1 p.2.nodeName ∨ e = Event.invokeInput p.1) := by
  rw [pushAll, List.mem_flatten] at he
  obtain ⟨l, hl, hel⟩ := he
  rw [List.mem_map] at hl
  obtain ⟨p, hp, hpe⟩ := hl
  subst hpe
  exact ⟨p, hp, pushMapper_events p.1 p.2 e hel⟩

/-- Every event of a Pull belongs to some registry entry and is an
output-direction resolution or invocation tagged with that entry's name. -/
theorem pullAll_events (ms : List (String × SofaNodeMapper)) (e : Event)
    (he : e ∈ (pullAll ms).2) :
    ∃ p, p ∈ ms ∧ (e = Event.resolveForOutput p.1 p.2.nodeName ∨ e = Event.invokeOutput p.1) := by
  rw [pullAll, List.mem_flatten] at he
  obtain ⟨l, hl, hel⟩ := he
  rw [List.mem_map] at hl
  obtain ⟨p, hp, hpe⟩ := hl
  subst hpe
  exact ⟨p, hp, pullMapper_events p.1 p.2 e hel⟩

/-- A Push emits no input-direction event for a field name outside the
registry keys. -/
theorem pushAll_input_zero (fname : String) (ms : List (String × SofaNodeMapper))
    (h : fname ∉ ms.map Prod.fst) :
    (pushAll ms).2.countP (isInvokeInput fname) = 0
    ∧ (pushAll ms).2.countP (isResolveInput fname) = 0 := by
  have hne : ∀ p, p ∈ ms → p.1 ≠ fname := by
    intro p hp heq
    exact h (heq ▸ List.mem_map.2 ⟨p, hp, rfl⟩)
  constructor <;>
    (rw [List.countP_eq_zero]
     intro e he
     obtain ⟨p, hp, h1 | h1⟩ := pushAll_events ms e he <;> subst h1 <;>
       simp [isInvokeInput, isResolveInput, hne p hp])

/-- A Pull emits no output-direction event for a field name outside the
registry keys. -/
theorem pullAll_output_zero (fname : String) (ms : List (String × SofaNodeMapper))
    (h : fname ∉ ms.map Prod.fst) :
    (pullAll ms).2.countP (isInvokeOutput fname) = 0
    ∧ (pullAll ms).2.countP (isResolveOutput fname) = 0 := by
  have hne : ∀ p, p ∈ ms → p.1 ≠ fname := by
    intro p hp heq
    exact h (heq ▸ List.mem_map.2 ⟨p, hp, rfl⟩)
  constructor <;>
    (rw [List.countP_eq_zero]
     intro e he
     obtain ⟨p, hp, h1 | h1⟩ := pullAll_events ms e he <;> subst h1 <;>
       simp [isInvokeOutput, isResolveOutput, hne p hp])

/-- A Pull emits no input-direction event at all. -/
theorem pullAll_no_input (fname : String) (ms : List (String × SofaNodeMapper)) :
    (pullAll ms).2.countP (isInvokeInput fname) = 0
    ∧ (pullAll ms).2.countP (isResolveInput fname) = 0 := by
  constructor <;>
    (rw [List.countP_eq_zero]
     intro e he
     obtain ⟨p, _, h1 | h1⟩ := pullAll_events ms e he <;> subst h1 <;>
       simp [isInvokeInput, isResolveInput])

/-- A Push emits no output-direction event at all. -/
theorem pushAll_no_output (fname : String) (ms : List (String × SofaNodeMapper)) :
    (pushAll ms).2.countP (isInvokeOutput fname) = 0
    ∧ (pushAll ms).2.countP (isResolveOutput fname) = 0 := by
  constructor <;>
    (rw [List.countP_eq_zero]
     intro e he
     obtain ⟨p, _, h1 | h1⟩ := pushAll_events ms e he <;> subst h1 <;>
       simp [isInvokeOutput, isResolveOutput])

/-- A run-once input mover that has already run is skipped entirely:
no node resolution, no invocation, no state change. -/
theorem pushMapper_skip (fn : String) (m : SofaNodeMapper) (f : Mover)
    (hf : m.inputMapping = some f) (hro : f.runOnce = true)
    (hhr : m.inputMapping_has_run = true) :
    pushMapper fn m = (m, []) := by
  unfold pushMapper
  rw [hf]
  simp [hro, hhr]

/-- A run-once input mover that has not yet run fires once and records the
firing in the has-run flag. -/
theorem pushMapper_fire (fn : String) (m : SofaNodeMapper) (f : Mover)
    (hf : m.inputMapping = some f) (hro : f.runOnce = true)
    (hhr : m.inputMapping_has_run = false) :
    pushMapper fn m = ({ m with inputMapping_has_run := true },
      [Event.resolveForInput fn m.nodeName, Event.invokeInput fn]) := by
  unfold pushMapper
  rw [hf]
  simp [hro, hhr]

/-- A run-once output mover that has already run is skipped entirely. -/
theorem pullMapper_skip (fn : String) (m : SofaNodeMapper) (f : Mover)
    (hf : m.outputMapping = some f) (hro : f.runOnce = true)
    (hhr : m.outputMapping_has_run = true) :
    pullMapper fn m = (m, []) := by
  unfold pullMapper
  rw [hf]
  simp [hro, hhr]

/-- A run-once output mover that has not yet run fires once and records the
firing in the has-run flag. -/
theorem pullMapper_fire (fn : String) (m : SofaNodeMapper) (f : Mover)
    (hf : m.outputMapping = some f) (hro : f.runOnce = true)
    (hhr : m.outputMapping_has_run = false) :
    pullMapper fn m = ({ m with outputMapping_has_run := true },
      [Event.resolveForOutput fn m.nodeName, Event.invokeOutput fn]) := by
  unfold pullMapper
  rw [hf]
  simp [hro, hhr]

/-- Splitting a Push over a decomposed registry. -/
theorem pushAll_append_cons (l1 l2 : List (String × SofaNodeMapper))
    (fn : String) (m : SofaNodeMapper) :
    pushAll (l1 ++ (fn, m) :: l2)
      = ((pushAll l1).1 ++ (fn, (pushMapper fn m).1) :: (pushAll l2).1,
         (pushAll l1).2 ++ ((pushMapper fn m).2 ++ (pushAll l2).2)) := by
  simp [pushAll]

/-- Splitting a Pull over a decomposed registry. -/
theorem pullAll_append_cons (l1 l2 : List (String × SofaNodeMapper))
    (fn : String) (m : SofaNodeMapper) :
    pullAll (l1 ++ (fn, m) :: l2)
      = ((pullAll l1).1 ++ (fn, (pullMapper fn m).1) :: (pullAll l2).1,
         (pullAll l1).2 ++ ((pullMapper fn m).2 ++ (pullAll l2).2)) := by
  simp [pullAll]

/-- Across any sequence of Push/Pull driver invocations, a descriptor whose
input mover is run-once contributes at most one input invocation and one
input node resolution - none at all if its input has-run flag is already
set. -/
theorem syncIter_input_bound (ops : List Bool) :
    ∀ (l1 l2 : List (String × SofaNodeMapper)) (fname : String)
      (m : SofaNodeMapper) (f : Mover),
    fname ∉ l1.map Prod.fst → fname ∉ l2.map Prod.fst →
    m.inputMapping = some f → f.runOnce = true →
    (syncIter ops (l1 ++ (fname, m) :: l2)).2.countP (isInvokeInput fname)
        ≤ (if m.inputMapping_has_run = true then 0 else 1)
    ∧ (syncIter ops (l1 ++ (fname, m) :: l2)).2.countP (isResolveInput fname)
        ≤ (if m.inputMapping_has_run = true then 0 else 1) := by
  induction ops with
  | nil =>
    intro l1 l2 fname m f _ _ _ _
    simp [syncIter]
  | cons b ops ih =>
    intro l1 l2 fname m f h1 h2 hf hro
    cases b
    · -- Pull: no input events, input state of the descriptor untouched
      have hsync : syncIter (false :: ops) (l1 ++ (fname, m) :: l2)
          = ((syncIter ops (pullAll (l1 ++ (fname, m) :: l2)).1).1,
             (pullAll (l1 ++ (fname, m) :: l2)).2
               ++ (syncIter ops (pullAll (l1 ++ (fname, m) :: l2)).1).2) := by
        simp [syncIter]
      rw [hsync]
      have hz := pullAll_no_input fname (l1 ++ (fname, m) :: l2)
      have hdec := pullAll_append_cons l1 l2 fname m
      have hframe := pullMapper_input_frame fname m
      have hrec := ih (pullAll l1).1 (pullAll l2).1 fname (pullMapper fname m).1 f
        (by rw [pullAll_fst]; exact h1) (by rw [pullAll_fst]; exact h2)
        (by rw [hframe.1]; exact hf) hro
      rw [hframe.2] at hrec
      constructor <;>
        (rw [List.countP_append]
         first
          | (rw [hz.1]
             have : (pullAll (l1 ++ (fname, m) :: l2)).1
                 = (pullAll l1).1 ++ (fname, (pullMapper fname m).1) :: (pullAll l2).1 := by
               rw [hdec]
             rw [this]
             simpa using hrec.1)
          | (rw [hz.2]
             have : (pullAll (l1 ++ (fname, m) :: l2)).1
                 = (pullAll l1).1 ++ (fname, (pullMapper fname m).1) :: (pullAll l2).1 := by
               rw [hdec]
             rw [this]
             simpa using hrec.2))
    · -- Push: the tracked descriptor fires at most once, then is skipped
      have hsync : syncIter (true :: ops) (l1 ++ (fname, m) :: l2)
          = ((syncIter ops (pushAll (l1 ++ (fname, m) :: l2)).1).1,
             (pushAll (l1 ++ (fname, m) :: l2)).2
               ++ (syncIter ops (pushAll (l1 ++ (fname, m) :: l2)).1).2) := by
        simp [syncIter]
      rw [hsync]
      have hdec := pushAll_append_cons l1 l2 fname m
      have hmrest : (pushAll (l1 ++ (fname, m) :: l2)).1
          = (pushAll l1).1 ++ (fname, (pushMapper fname m).1) :: (pushAll l2).1 := by
        rw [hdec]
      have hz1 := pushAll_input_zero fname l1 h1
      have hz2 := pushAll_input_zero fname l2 h2
      have hev : (pushAll (l1 ++ (fname, m) :: l2)).2
          = (pushAll l1).2 ++ ((pushMapper fname m).2 ++ (pushAll l2).2) := by
        rw [hdec]
      by_cases hhr : m.inputMapping_has_run = true
      · have hskip := pushMapper_skip fname m f hf hro hhr
        have hrec := ih (pushAll l1).1 (pushAll l2).1 fname m f
          (by rw [pushAll_fst]; exact h1) (by rw [pushAll_fst]; exact h2) hf hro
        rw [if_pos hhr] at hrec
        constructor <;>
          (rw [hev, hmrest, hskip, if_pos hhr]
           simp only [List.countP_append, List.countP_nil, List.nil_append]
           omega)
      · have hhr2 : m.inputMapping_has_run = false := by
          cases hx : m.inputMapping_has_run
          · rfl
          · exact absurd hx hhr
        have hfire := pushMapper_fire fname m f hf hro hhr2
        have hrec := ih (pushAll l1).1 (pushAll l2).1 fname
          { m with inputMapping_has_run := true } f
          (by rw [pushAll_fst]; exact h1) (by rw [pushAll_fst]; exact h2) hf hro
        rw [if_pos rfl] at hrec
        have hone1 : ([Event.resolveForInput fname m.nodeName,
            Event.invokeInput fname]).countP (isInvokeInput fname) = 1 := by
          simp [isInvokeInput, isResolveInput, List.countP_cons]
        have hone2 : ([Event.resolveForInput fname m.nodeName,
            Event.invokeInput fname]).countP (isResolveInput fname) = 1 := by
          simp [isInvokeInput, isResolveInput, List.countP_cons]
        constructor <;>
          (rw [hev, hmrest, hfire, if_neg hhr]
           simp only [List.countP_append, List.countP_nil, List.nil_append]
           omega)

/-- Across any sequence of Push/Pull driver invocations, a descriptor whose
output mover is run-once contributes at most one output invocation and one
output node resolution - none at all if its output has-run flag is already
set. -/
theorem syncIter_output_bound (ops : List Bool) :
    ∀ (l1 l2 : List (String × SofaNodeMapper)) (fname : String)
      (m : SofaNodeMapper) (f : Mover),
    fname ∉ l1.map Prod.fst → fname ∉ l2.map Prod.fst →
    m.outputMapping = some f → f.runOnce = true →
    (syncIter ops (l1 ++ (fname, m) :: l2)).2.countP (isInvokeOutput fname)
        ≤ (if m.outputMapping_has_run = true then 0 else 1)
    ∧ (syncIter ops (l1 ++ (fname, m) :: l2)).2.countP (isResolveOutput fname)
        ≤ (if m.outputMapping_has_run = true then 0 else 1) := by
  induction ops with
  | nil =>
    intro l1 l2 fname m f _ _ _ _
    simp [syncIter]
  | cons b ops ih =>
    intro l1 l2 fname m f h1 h2 hf hro
    cases b
    · -- Pull: the tracked descriptor fires at most once, then is skipped
      have hsync : syncIter (false :: ops) (l1 ++ (fname, m) :: l2)
          = ((syncIter ops (pullAll (l1 ++ (fname, m) :: l2)).1).1,
             (pullAll (l1 ++ (fname, m) :: l2)).2
               ++ (syncIter ops (pullAll (l1 ++ (fname, m) :: l2)).1).2) := by
        simp [syncIter]
      rw [hsync]
      have hdec := pullAll_append_cons l1 l2 fname m
      have hmrest : (pullAll (l1 ++ (fname, m) :: l2)).1
          = (pullAll l1).1 ++ (fname, (pullMapper fname m).1) :: (pullAll l2).1 := by
        rw [hdec]
      have hz1 := pullAll_output_zero fname l1 h1
      have hz2 := pullAll_output_zero fname l2 h2
      have hev : (pullAll (l1 ++ (fname, m) :: l2)).2
          = (pullAll l1).2 ++ ((pullMapper fname m).2 ++ (pullAll l2).2) := by
        rw [hdec]
      by_cases hhr : m.outputMapping_has_run = true
      · have hskip := pullMapper_skip fname m f hf hro hhr
        have hrec := ih (pullAll l1).1 (pullAll l2).1 fname m f
          (by rw [pullAll_fst]; exact h1) (by rw [pullAll_fst]; exact h2) hf hro
        rw [if_pos hhr] at hrec
        constructor <;>
          (rw [hev, hmrest, hskip, if_pos hhr]
           simp only [List.countP_append, List.countP_nil, List.nil_append]
           omega)
      · have hhr2 : m.outputMapping_has_run = false := by
          cases hx : m.outputMapping_has_run
          · rfl
          · exact absurd hx hhr
        have hfire := pullMapper_fire fname m f hf hro hhr2
        have hrec := ih (pullAll l1).1 (pullAll l2).1 fname
          { m with outputMapping_has_run := true } f
          (by rw [pullAll_fst]; exact h1) (by rw [pullAll_fst]; exact h2) hf hro
        rw [if_pos rfl] at hrec
        have hone1 : ([Event.resolveForOutput fname m.nodeName,
            Event.invokeOutput fname]).countP (isInvokeOutput fname) = 1 := by
          simp [isInvokeOutput, isResolveOutput, List.countP_cons]
        have hone2 : ([Event.resolveForOutput fname m.nodeName,
            Event.invokeOutput fname]).countP (isResolveOutput fname) = 1 := by
          simp [isInvokeOutput, isResolveOutput, List.countP_cons]
        constructor <;>
          (rw [hev, hmrest, hfire, if_neg hhr]
           simp only [List.countP_append, List.countP_nil, List.nil_append]
           omega)
    · -- Push: no output events, output state of the descriptor untouched
      have hsync : syncIter (true :: ops) (l1 ++ (fname, m) :: l2)
          = ((syncIter ops (pushAll (l1 ++ (fname, m) :: l2)).1).1,
             (pushAll (l1 ++ (fname, m) :: l2)).2
               ++ (syncIter ops (pushAll (l1 ++ (fname, m) :: l2)).1).2) := by
        simp [syncIter]
      rw [hsync]
      have hz := pushAll_no_output fname (l1 ++ (fname, m) :: l2)
      have hdec := pushAll_append_cons l1 l2 fname m
      have hframe := pushMapper_output_frame fname m
      have hrec := ih (pushAll l1).1 (pushAll l2).1 fname (pushMapper fname m).1 f
        (by rw [pushAll_fst]; exact h1) (by rw [pushAll_fst]; exact h2)
        (by rw [hframe.1]; exact hf) hro
      rw [hframe.2] at hrec
      constructor <;>
        (rw [List.countP_append]
         first
          | (rw [hz.1]
             have hm2 : (pushAll (l1 ++ (fname, m) :: l2)).1
                 = (pushAll l1).1 ++ (fname, (pushMapper fname m).1) :: (pushAll l2).1 := by
               rw [hdec]
             rw [hm2]
             simpa using hrec.1)
          | (rw [hz.2]
             have hm2 : (pushAll (l1 ++ (fname, m) :: l2)).1
                 = (pushAll l1).1 ++ (fname, (pushMapper fname m).1) :: (pushAll l2).1 := by
               rw [hdec]
             rw [hm2]
             simpa using hrec.2))

/-- C4: for a registered descriptor (unique field names) whose input
(resp. output) mover is marked run-once, any sequence of Push/Pull driver
invocations on the registry invokes that mover at most once and resolves its
node at most once; once fired it is skipped. -/
theorem run_once_invoked_at_most_once (ms : List (String × SofaNodeMapper))
    (fname : String) (m : SofaNodeMapper) (ops : List Bool)
    (hm : (fname, m) ∈ ms) (hnd : (ms.map Prod.fst).Nodup) :
    (∀ f, m.inputMapping = some f → f.runOnce = true →
      (syncIter ops ms).2.countP (isInvokeInput fname) ≤ 1
      ∧ (syncIter ops ms).2.countP (isResolveInput fname) ≤ 1)
    ∧ (∀ f, m.outputMapping = some f → f.runOnce = true →
      (syncIter ops ms).2.countP (isInvokeOutput fname) ≤ 1
      ∧ (syncIter ops ms).2.countP (isResolveOutput fname) ≤ 1) := by
  obtain ⟨l1, l2, hms⟩ := List.append_of_mem hm
  subst hms
  rw [List.map_append, List.map_cons] at hnd
  have hnotmem : fname ∉ l1.map Prod.fst ++ l2.map Prod.fst := by
    have := List.nodup_middle.mp (by simpa using hnd)
    exact (List.nodup_cons.mp this).1
  have h1 : fname ∉ l1.map Prod.fst := fun hx => hnotmem (List.mem_append.2 (Or.inl hx))
  have h2 : fname ∉ l2.map Prod.fst := fun hx => hnotmem (List.mem_append.2 (Or.inr hx))
  constructor
  · intro f hf hro
    have hb := syncIter_input_bound ops l1 l2 fname m f h1 h2 hf hro
    have hle : (if m.inputMapping_has_run = true then 0 else 1) ≤ 1 := by
      split <;> omega
    exact ⟨le_trans hb.1 hle, le_trans hb.2 hle⟩
  · intro f hf hro
    have hb := syncIter_output_bound ops l1 l2 fname m f h1 h2 hf hro
    have hle : (if m.outputMapping_has_run = true then 0 else 1) ≤ 1 := by
      split <;> omega
    exact ⟨le_trans hb.1 hle, le_trans hb.2 hle⟩

/-- Witness for C4: the two-descriptor fixture registry, with a Push, a
Pull, and two more Pushes; the run-once movers of the "mesh" descriptor are
invoked at most once in each direction. -/
theorem run_once_invoked_at_most_once_witness :
    ((syncIter [true, false, true, true] registryW).2.countP (isInvokeInput "mesh") ≤ 1
      ∧ (syncIter [true, false, true, true] registryW).2.countP (isResolveInput "mesh") ≤ 1)
    ∧ ((syncIter [true, false, true, true] registryW).2.countP (isInvokeOutput "mesh") ≤ 1
      ∧ (syncIter [true, false, true, true] registryW).2.countP (isResolveOutput "mesh") ≤ 1) :=
  ⟨(run_once_invoked_at_most_once registryW "mesh" mapperOnce [true, false, true, true]
      (by simp [registryW]) (by simp [registryW])).1 moverIn rfl rfl,
   (run_once_invoked_at_most_once registryW "mesh" mapperOnce [true, false, true, true]
      (by simp [registryW]) (by simp [registryW])).2 moverOut rfl rfl⟩

/-- C8: `clean()` never resets the run-once has-run flags: tearing down a
Built controller leaves every descriptor (in particular both has-run flags)
exactly as it was, and a run-once input mover that has already fired is not
invoked again by the Push of a subsequent `setupScene` on the cleaned
controller with the same container. -/
theorem clean_never_resets_run_once (s : LogicState) (pn : ParamNode)
    (fname : String) (m : SofaNodeMapper) (f : Mover)
    (hb : s.sceneUp = true) (hr : s.rootNode = some ()) (hp : s.paramNode = some pn)
    (hw : pn.sofaParameterNodeWrapped = true)
    (hm : (fname, m) ∈ pn.mappers) (hnd : (pn.mappers.map Prod.fst).Nodup)
    (hf : m.inputMapping = some f) (hro : f.runOnce = true)
    (hhr : m.inputMapping_has_run = true) :
    (clean s).state.paramNode.map ParamNode.mappers = s.paramNode.map ParamNode.mappers
    ∧ (setupScene (clean s).state (argOf (clean s).state) RootArg.node).state.trace.countP
        (isInvokeInput fname)
      = (clean s).state.trace.countP (isInvokeInput fname) := by
  have hcl : clean s =
      ⟨{ s with
          rootNode := none
          sceneUp := false
          paramNode := some { pn with isSimulationRunning := false }
          trace := s.trace ++ [Event.unload] }, none⟩ := by
    unfold clean
    rw [hp]
    simp [hb, hr]
  -- no input invocation for the fired descriptor in a fresh Push
  obtain ⟨l1, l2, hms⟩ := List.append_of_mem hm
  have hnotmem : fname ∉ l1.map Prod.fst ++ l2.map Prod.fst := by
    rw [hms, List.map_append, List.map_cons] at hnd
    have := List.nodup_middle.mp (by simpa using hnd)
    exact (List.nodup_cons.mp this).1
  have h1 : fname ∉ l1.map Prod.fst := fun hx => hnotmem (List.mem_append.2 (Or.inl hx))
  have h2 : fname ∉ l2.map Prod.fst := fun hx => hnotmem (List.mem_append.2 (Or.inr hx))
  have hbd := (syncIter_input_bound [true] l1 l2 fname m f h1 h2 hf hro).1
  rw [if_pos hhr] at hbd
  have hz : (pushAll pn.mappers).2.countP (isInvokeInput fname) = 0 := by
    rw [hms]
    simp only [syncIter] at hbd
    simpa using hbd
  rw [hcl]
  refine ⟨by rw [hp]; simp, ?_⟩
  have harg : argOf
      { s with
          rootNode := none
          sceneUp := false
          paramNode := some { pn with isSimulationRunning := false }
          trace := s.trace ++ [Event.unload] }
      = ParamArg.wrapped { pn with isSimulationRunning := false } := by
    simp [argOf]
  rw [harg]
  have hsetup : setupScene
      { s with
          rootNode := none
          sceneUp := false
          paramNode := some { pn with isSimulationRunning := false }
          trace := s.trace ++ [Event.unload] }
      (ParamArg.wrapped { pn with isSimulationRunning := false }) RootArg.node
      = ⟨{ s with
            rootNode := some ()
            sceneUp := true
            paramNode := some { pn with
              isSimulationRunning := false
              mappers := (pushAll pn.mappers).1 }
            trace := (s.trace ++ [Event.unload])
              ++ Event.pushOp :: (pushAll pn.mappers).2 ++ [Event.sofaInit] }, none⟩ := by
    simp [setupScene, hw]
  rw [hsetup]
  simp [List.countP_append, List.countP_cons, isInvokeInput, hz]

/-- Witness for C8: the Built fixture whose "mesh" descriptor has fired. -/
theorem clean_never_resets_run_once_witness :
    (clean builtFired).state.paramNode.map ParamNode.mappers
        = builtFired.paramNode.map ParamNode.mappers
    ∧ (setupScene (clean builtFired).state (argOf (clean builtFired).state)
        RootArg.node).state.trace.countP (isInvokeInput "mesh")
      = (clean builtFired).state.trace.countP (isInvokeInput "mesh") :=
  clean_never_resets_run_once builtFired pnFired "mesh" mapperFired moverIn
    rfl rfl rfl rfl (by simp [pnFired, registryFired]) (by simp [pnFired, registryFired])
    rfl rfl rfl

end SlicerSofa
